import Mathlib

/-
Verification of grexie/web3-react.

Shallow embedding of the library's three verifiable components:
  * the `BatchRequestQueue` class (src/useWeb3.tsx, lines 39-82),
  * the `useWeb3Query` refetch state machine (src/useWeb3.tsx, lines 309-454),
  * the `useWeb3MultiQuery` combinator (src/useWeb3MultiQuery.tsx, lines 9-20).

The JavaScript event loop is modelled explicitly: `setImmediate` adds a task id
to a list of scheduled tasks, `clearImmediate` removes one, and `runTurn`
fires every scheduled flush callback at the start of the next scheduler turn.
-/

namespace Web3React

/-- One `BatchRequestQueue` instance (src/useWeb3.tsx lines 39-82).  The private
side table holds `queue` (the pending `Web3Method`s, of type `M`), the
`BatchRequest` executor handle (modelled by an executor id, `none` when unset)
and the `immediate` field (the id of the last `setImmediate` handle).
`scheduled` is the event loop's list of currently scheduled immediates, in
scheduling order, and `nextId` generates fresh immediate ids.  `batches`
records every batch executed so far: the executor it was built from together
with the methods added to it, in order. -/
structure QueueState (M : Type) where
  queue : List M
  batchRequest : Option Nat
  scheduled : List Nat
  immediateId : Option Nat
  nextId : Nat
  batches : List (Nat × List M)
  deriving Repr, DecidableEq

variable {M : Type}

/-- the `clearImmediate(_.immediate)` call at line 60: removes the previously
scheduled flush task, if any, from the event loop. -/
def clearImmediateOp (s : QueueState M) : QueueState M :=
  match s.immediateId with
  | none => s
  | some i => { s with scheduled := s.scheduled.erase i }

/-- `BatchRequestQueue.process` (lines 54-75): returns immediately when no
executor is set; otherwise cancels the previously scheduled flush and
schedules a fresh one for the next scheduler turn. -/
def process (s : QueueState M) : QueueState M :=
  match s.batchRequest with
  | none => s
  | some _ =>
    let s1 := clearImmediateOp s
    { s1 with
      scheduled := s1.scheduled ++ [s1.nextId]
      immediateId := some s1.nextId
      nextId := s1.nextId + 1 }

/-- `BatchRequestQueue.add` (lines 77-81): push the method and call `process`. -/
def add (s : QueueState M) (m : M) : QueueState M :=
  process { s with queue := s.queue ++ [m] }

/-- the `BatchRequest` setter (lines 49-52): store the executor handle and call
`process`. -/
def setBatchRequest (s : QueueState M) (ex : Nat) : QueueState M :=
  process { s with batchRequest := some ex }

/-- body of the immediate scheduled at lines 61-74: splice the whole queue out,
return if it was empty, otherwise build a batch from the spliced methods in
order and execute it against the current executor. -/
def flushBody (s : QueueState M) : QueueState M :=
  let methods := s.queue
  let s1 := { s with queue := ([] : List M) }
  if methods.isEmpty then s1
  else
    match s1.batchRequest with
    | none => s1
    | some ex => { s1 with batches := s1.batches ++ [(ex, methods)] }

/-- the next scheduler turn: every scheduled immediate fires (each one runs the
flush body of lines 62-73) and the scheduled list empties. -/
def runTurn (s : QueueState M) : QueueState M :=
  flushBody^[s.scheduled.length] { s with scheduled := ([] : List Nat) }

/-- scheduling invariant of the queue: at most one flush is scheduled at a
time, and when one is scheduled it is the one recorded in the `immediate`
field. -/
def schedInv (s : QueueState M) : Prop :=
  s.scheduled = [] ∨ ∃ i, s.scheduled = [i] ∧ s.immediateId = some i

theorem clearImmediateOp_scheduled_nil (s : QueueState M) (h : schedInv s) :
    (clearImmediateOp s).scheduled = [] := by
  rcases h with h | ⟨i, h1, h2⟩
  · unfold clearImmediateOp
    cases hi : s.immediateId <;> simp [h]
  · simp [clearImmediateOp, h1, h2]

theorem clearImmediateOp_queue (s : QueueState M) :
    (clearImmediateOp s).queue = s.queue := by
  unfold clearImmediateOp; cases s.immediateId <;> rfl

theorem clearImmediateOp_batches (s : QueueState M) :
    (clearImmediateOp s).batches = s.batches := by
  unfold clearImmediateOp; cases s.immediateId <;> rfl

theorem clearImmediateOp_batchRequest (s : QueueState M) :
    (clearImmediateOp s).batchRequest = s.batchRequest := by
  unfold clearImmediateOp; cases s.immediateId <;> rfl

theorem clearImmediateOp_nextId (s : QueueState M) :
    (clearImmediateOp s).nextId = s.nextId := by
  unfold clearImmediateOp; cases s.immediateId <;> rfl

theorem process_queue (s : QueueState M) : (process s).queue = s.queue := by
  unfold process
  cases s.batchRequest <;> simp [clearImmediateOp_queue]

theorem process_batches (s : QueueState M) : (process s).batches = s.batches := by
  unfold process
  cases s.batchRequest <;> simp [clearImmediateOp_batches]

theorem process_batchRequest (s : QueueState M) :
    (process s).batchRequest = s.batchRequest := by
  unfold process
  cases hb : s.batchRequest <;> simp [clearImmediateOp_batchRequest, hb]

theorem process_none (s : QueueState M) (h : s.batchRequest = none) :
    process s = s := by
  unfold process; rw [h]

theorem process_oneScheduled (s : QueueState M) (ex : Nat)
    (hb : s.batchRequest = some ex) (h : schedInv s) :
    (process s).scheduled = [s.nextId] ∧ (process s).immediateId = some s.nextId := by
  unfold process
  rw [hb]
  simp [clearImmediateOp_scheduled_nil s h, clearImmediateOp_nextId]

theorem process_schedInv (s : QueueState M) (h : schedInv s) :
    schedInv (process s) := by
  cases hb : s.batchRequest with
  | none => rw [process_none s hb]; exact h
  | some ex =>
    right
    obtain ⟨h1, h2⟩ := process_oneScheduled s ex hb h
    exact ⟨s.nextId, h1, h2⟩

theorem add_queue (s : QueueState M) (m : M) :
    (add s m).queue = s.queue ++ [m] := by
  unfold add; rw [process_queue]

theorem add_batches (s : QueueState M) (m : M) :
    (add s m).batches = s.batches := by
  unfold add; rw [process_batches]

theorem add_batchRequest (s : QueueState M) (m : M) :
    (add s m).batchRequest = s.batchRequest := by
  unfold add; rw [process_batchRequest]

theorem add_schedInv (s : QueueState M) (m : M) (h : schedInv s) :
    schedInv (add s m) := by
  unfold add
  apply process_schedInv
  exact h

theorem schedInv_length (s : QueueState M) (h : schedInv s) :
    s.scheduled.length ≤ 1 := by
  rcases h with h | ⟨i, h1, _⟩
  · simp [h]
  · simp [h1]

theorem foldl_add_queue (ms : List M) (s : QueueState M) :
    (ms.foldl add s).queue = s.queue ++ ms := by
  induction ms generalizing s with
  | nil => simp
  | cons m ms ih => simp [List.foldl_cons, ih, add_queue]

theorem foldl_add_batches (ms : List M) (s : QueueState M) :
    (ms.foldl add s).batches = s.batches := by
  induction ms generalizing s with
  | nil => rfl
  | cons m ms ih => simp [List.foldl_cons, ih, add_batches]

theorem foldl_add_batchRequest (ms : List M) (s : QueueState M) :
    (ms.foldl add s).batchRequest = s.batchRequest := by
  induction ms generalizing s with
  | nil => rfl
  | cons m ms ih => simp [List.foldl_cons, ih, add_batchRequest]

theorem foldl_add_schedInv (ms : List M) (s : QueueState M) (h : schedInv s) :
    schedInv (ms.foldl add s) := by
  induction ms generalizing s with
  | nil => exact h
  | cons m ms ih => exact ih _ (add_schedInv s m h)

theorem add_oneScheduled (s : QueueState M) (m : M) (ex : Nat)
    (hb : s.batchRequest = some ex) (h : schedInv s) :
    ∃ i, (add s m).scheduled = [i] ∧ (add s m).immediateId = some i := by
  unfold add
  obtain ⟨h1, h2⟩ :=
    process_oneScheduled { s with queue := s.queue ++ [m] } ex hb
      (by rcases h with h | ⟨i, h1, h2⟩
          · exact Or.inl h
          · exact Or.inr ⟨i, h1, h2⟩)
  exact ⟨_, h1, h2⟩

theorem foldl_add_oneScheduled (ms : List M) (s : QueueState M) (ex : Nat)
    (hb : s.batchRequest = some ex) (h : schedInv s) (hne : ms ≠ []) :
    ∃ i, (ms.foldl add s).scheduled = [i] := by
  induction ms generalizing s with
  | nil => exact absurd rfl hne
  | cons m ms ih =>
    cases hm : ms with
    | nil =>
      obtain ⟨i, h1, _⟩ := add_oneScheduled s m ex hb h
      exact ⟨i, by simp [hm, h1]⟩
    | cons m2 ms2 =>
      have hb2 : (add s m).batchRequest = some ex := by rw [add_batchRequest, hb]
      have hinv2 : schedInv (add s m) := add_schedInv s m h
      obtain ⟨i, h1⟩ := ih (add s m) hb2 hinv2 (by simp [hm])
      exact ⟨i, by simpa [hm] using h1⟩

theorem runTurn_of_scheduled_nil (s : QueueState M) (h : s.scheduled = []) :
    runTurn s = s := by
  unfold runTurn
  rw [h]
  simp only [List.length_nil, Function.iterate_zero, id]
  cases s
  simp_all

theorem runTurn_of_one (s : QueueState M) (i : Nat) (h : s.scheduled = [i]) :
    runTurn s = flushBody { s with scheduled := ([] : List Nat) } := by
  unfold runTurn
  rw [h]
  simp

theorem flushBody_of_nonempty (s : QueueState M) (ex : Nat)
    (hq : s.queue ≠ []) (hb : s.batchRequest = some ex) :
    flushBody s =
      { s with queue := ([] : List M), batches := s.batches ++ [(ex, s.queue)] } := by
  unfold flushBody
  simp only [List.isEmpty_iff, hq, if_neg, hb]
  simp [hq]

theorem setBatchRequest_queue (s : QueueState M) (ex : Nat) :
    (setBatchRequest s ex).queue = s.queue := by
  unfold setBatchRequest; rw [process_queue]

theorem setBatchRequest_batches (s : QueueState M) (ex : Nat) :
    (setBatchRequest s ex).batches = s.batches := by
  unfold setBatchRequest; rw [process_batches]

theorem setBatchRequest_batchRequest (s : QueueState M) (ex : Nat) :
    (setBatchRequest s ex).batchRequest = some ex := by
  unfold setBatchRequest; rw [process_batchRequest]

theorem foldl_add_of_none (ms : List M) (s : QueueState M)
    (hb : s.batchRequest = none) :
    ms.foldl add s = { s with queue := s.queue ++ ms } := by
  induction ms generalizing s with
  | nil => cases s; simp
  | cons m ms ih =>
    rw [List.foldl_cons]
    have ha : add s m = { s with queue := s.queue ++ [m] } := by
      unfold add
      exact process_none _ hb
    rw [ha, ih { s with queue := s.queue ++ [m] } hb]
    simp

/-- C1.  Within one synchronous pass over a quiescent queue with an executor
set, any nonempty sequence of `add` calls yields, after the next scheduler
turn, exactly one executed batch containing all of the added methods in add
order, with the queue drained; and no sequence of `add` calls ever leaves more
than one flush scheduled at a time. -/
theorem claim1_one_batch_per_pass (s : QueueState M) (ex : Nat) (ms : List M)
    (hq : s.queue = []) (hb : s.batchRequest = some ex) (hs : s.scheduled = [])
    (hne : ms ≠ []) :
    (runTurn (ms.foldl add s)).batches = s.batches ++ [(ex, ms)]
    ∧ (runTurn (ms.foldl add s)).queue = []
    ∧ ∀ ms2 : List M, ((ms2.foldl add s).scheduled).length ≤ 1 := by
  have hinv : schedInv s := Or.inl hs
  obtain ⟨i, hi⟩ := foldl_add_oneScheduled ms s ex hb hinv hne
  have hq1 : (ms.foldl add s).queue = ms := by
    rw [foldl_add_queue, hq]; simp
  have hb1 : (ms.foldl add s).batchRequest = some ex := by
    rw [foldl_add_batchRequest]; exact hb
  have hrt := runTurn_of_one (ms.foldl add s) i hi
  have hq2 : ({ ms.foldl add s with scheduled := ([] : List Nat) }).queue = ms := hq1
  have hb2 : ({ ms.foldl add s with scheduled := ([] : List Nat) }).batchRequest
      = some ex := hb1
  have hfl := flushBody_of_nonempty { ms.foldl add s with scheduled := ([] : List Nat) }
    ex (by rw [hq2]; exact hne) hb2
  refine ⟨?_, ?_, ?_⟩
  · rw [hrt, hfl]
    show (ms.foldl add s).batches ++ [(ex, (ms.foldl add s).queue)] = _
    rw [foldl_add_batches, hq1]
  · rw [hrt, hfl]
  · intro ms2
    exact schedInv_length _ (foldl_add_schedInv ms2 s hinv)

/-- witness for C1 at a concrete queue state and two concrete methods. -/
theorem claim1_witness :
    (runTurn (([10, 20] : List Nat).foldl add
        ⟨[], some 0, [], none, 0, []⟩)).batches = [] ++ [(0, [10, 20])]
    ∧ (runTurn (([10, 20] : List Nat).foldl add
        ⟨[], some 0, [], none, 0, []⟩)).queue = []
    ∧ ∀ ms2 : List Nat,
        ((ms2.foldl add (⟨[], some 0, [], none, 0, []⟩ : QueueState Nat)).scheduled).length ≤ 1 :=
  claim1_one_batch_per_pass ⟨[], some 0, [], none, 0, []⟩ 0 [10, 20]
    rfl rfl rfl (by decide)

/-- C2.  With no executor set, a flush attempt (`process`) is a no-op that
does not clear the pending queue: methods added while no executor is set
remain pending across a scheduler turn; once the `BatchRequest` setter is
called, the next turn dispatches all of them as one batch to the new executor
and empties the queue. -/
theorem claim2_pending_without_executor (s : QueueState M) (ms : List M) (ex : Nat)
    (hb : s.batchRequest = none) (hs : s.scheduled = []) (hq : s.queue = [])
    (hne : ms ≠ []) :
    process (ms.foldl add s) = ms.foldl add s
    ∧ (ms.foldl add s).queue = ms
    ∧ runTurn (ms.foldl add s) = ms.foldl add s
    ∧ (runTurn (setBatchRequest (runTurn (ms.foldl add s)) ex)).queue = []
    ∧ (runTurn (setBatchRequest (runTurn (ms.foldl add s)) ex)).batches
        = s.batches ++ [(ex, ms)] := by
  have hfold := foldl_add_of_none ms s hb
  have hb1 : (ms.foldl add s).batchRequest = none := by
    rw [foldl_add_batchRequest]; exact hb
  have hq1 : (ms.foldl add s).queue = ms := by
    rw [foldl_add_queue, hq]; simp
  have hs1 : (ms.foldl add s).scheduled = [] := by
    rw [hfold]; exact hs
  have hrt : runTurn (ms.foldl add s) = ms.foldl add s :=
    runTurn_of_scheduled_nil _ hs1
  have hbatches1 : (ms.foldl add s).batches = s.batches := foldl_add_batches ms s
  refine ⟨process_none _ hb1, hq1, hrt, ?_, ?_⟩
  all_goals rw [hrt]
  all_goals
    obtain ⟨hsch, _⟩ :=
      process_oneScheduled { ms.foldl add s with batchRequest := some ex } ex rfl
        (Or.inl hs1)
    have hset : setBatchRequest (ms.foldl add s) ex
        = process { ms.foldl add s with batchRequest := some ex } := rfl
    have hrt2 := runTurn_of_one (setBatchRequest (ms.foldl add s) ex) _
      (by rw [hset]; exact hsch)
    have hqset : ({ setBatchRequest (ms.foldl add s) ex with
        scheduled := ([] : List Nat) }).queue = ms := by
      show (setBatchRequest (ms.foldl add s) ex).queue = ms
      rw [setBatchRequest_queue, hq1]
    have hbset : ({ setBatchRequest (ms.foldl add s) ex with
        scheduled := ([] : List Nat) }).batchRequest = some ex := by
      show (setBatchRequest (ms.foldl add s) ex).batchRequest = some ex
      rw [setBatchRequest_batchRequest]
    have hfl := flushBody_of_nonempty
      { setBatchRequest (ms.foldl add s) ex with scheduled := ([] : List Nat) }
      ex (by rw [hqset]; exact hne) hbset
  · rw [hrt2, hfl]
  · rw [hrt2, hfl]
    show ({ setBatchRequest (ms.foldl add s) ex with
        scheduled := ([] : List Nat) }).batches
      ++ [(ex, ({ setBatchRequest (ms.foldl add s) ex with
        scheduled := ([] : List Nat) }).queue)] = _
    rw [hqset]
    show (setBatchRequest (ms.foldl add s) ex).batches ++ [(ex, ms)] = _
    rw [setBatchRequest_batches, hbatches1]

/-- witness for C2: three methods enqueued with no executor survive a turn and
are all dispatched once an executor is set. -/
theorem claim2_witness :
    process (([7, 8, 9] : List Nat).foldl add ⟨[], none, [], none, 0, []⟩)
      = ([7, 8, 9] : List Nat).foldl add ⟨[], none, [], none, 0, []⟩
    ∧ (([7, 8, 9] : List Nat).foldl add
        (⟨[], none, [], none, 0, []⟩ : QueueState Nat)).queue = [7, 8, 9]
    ∧ runTurn (([7, 8, 9] : List Nat).foldl add ⟨[], none, [], none, 0, []⟩)
      = ([7, 8, 9] : List Nat).foldl add ⟨[], none, [], none, 0, []⟩
    ∧ (runTurn (setBatchRequest
        (runTurn (([7, 8, 9] : List Nat).foldl add ⟨[], none, [], none, 0, []⟩)) 5)).queue = []
    ∧ (runTurn (setBatchRequest
        (runTurn (([7, 8, 9] : List Nat).foldl add ⟨[], none, [], none, 0, []⟩)) 5)).batches
      = [] ++ [(5, [7, 8, 9])] :=
  claim2_pending_without_executor ⟨[], none, [], none, 0, []⟩ [7, 8, 9] 5
    rfl rfl rfl (by decide)

/-- state of one `useWeb3Query` controller (src/useWeb3.tsx lines 330-333):
`data` is the `value` piece of state, `error` the `error` piece, plus the
`loading` and `firstLoad` flags. -/
structure QueryState (T E : Type) where
  data : Option T
  error : Option E
  loading : Bool
  firstLoad : Bool
  deriving Repr, DecidableEq

/-- initial controller state (lines 330-333): `useState<T>()`,
`useState(true)`, `useState(true)`, `useState<Error>()`. -/
def initialQueryState {T E : Type} : QueryState T E :=
  ⟨none, none, true, true⟩

/-- outcome the batch executor delivers to one attempt's continuation:
the callback at lines 355-374 either rejects with an error or resolves with a
value. -/
inductive Outcome (T E : Type) where
  | success (v : T)
  | failure (e : E)
  deriving Repr, DecidableEq

/-- observable actions of one `refetch` run: `issueStart` is the
`setLoading(true)` at line 346, `submit t` is the `request(call)` at line 377
submitting the attempt-`t` descriptor to the batch queue, `wait ms` is the
`setTimeout` delay at line 394, and `settleOk`/`settleErr` are the state
writes of lines 384-387 and 398-401. -/
inductive QEvent (T E : Type) where
  | issueStart
  | submit (t : Nat)
  | wait (ms : Nat)
  | settleOk (v : T)
  | settleErr (e : E)
  deriving Repr, DecidableEq

/-- result of running `refetch`: the final controller state, the trace of
every controller state written during the run (in write order), and the list
of observable actions. -/
structure RunResult (T E : Type) where
  state : QueryState T E
  trace : List (QueryState T E)
  events : List (QEvent T E)
  deriving Repr, DecidableEq

variable {T E : Type}

/-- successful settlement writes (lines 384-387): `setError(undefined)`,
`setValue(value)`, `setLoading(false)`, `setFirstLoad(false)`. -/
def applySuccess (v : T) (_s : QueryState T E) : QueryState T E :=
  { data := some v, error := none, loading := false, firstLoad := false }

/-- terminal failure writes (lines 398-401): `setError(err)`,
`setValue(undefined)`, `setLoading(false)`, `setFirstLoad(false)`. -/
def applyFailure (e : E) (_s : QueryState T E) : QueryState T E :=
  { data := none, error := some e, loading := false, firstLoad := false }

/-- the success checkpoint (lines 380-387): a resolution arriving with the
cancellation token flipped is discarded without touching the state. -/
def settleSuccess (cancelled : Bool) (v : T) (s : QueryState T E) : QueryState T E :=
  if cancelled then s else applySuccess v s

/-- the exhausted-retries failure checkpoint (lines 389-401 with no retries
left): a rejection arriving with the cancellation token flipped is discarded
without touching the state. -/
def settleFailureTerminal (cancelled : Bool) (e : E) (s : QueryState T E) :
    QueryState T E :=
  if cancelled then s else applyFailure e s

/-- the cancellation token created by the issue effect (line 427) and by the
refetch-signal effect (line 439). -/
structure Canceller where
  cancel : Bool
  deriving Repr, DecidableEq

/-- effect cleanup (lines 429-431 and 442-445): flips the token so that a
late-arriving settlement of the superseded attempt is discarded. -/
def effectCleanup (_c : Canceller) : Canceller :=
  { cancel := true }

/-- core of `refetch` (lines 346-402), one recursion level per attempt.
`cancel t` is the value of `canceller?.cancel` observed at attempt `t`'s
settlement checkpoints, `outcome t` is what the batch executor delivers to
attempt `t`'s continuation, `retries` is the remaining retry budget and `s`
the controller state when the attempt starts.  Each level sets
`loading := true`, submits a fresh descriptor, and settles: a flipped token
discards the settlement; a failure with budget left waits 1000 ms and
re-invokes the whole function with the same canceller and `retries - 1`. -/
def refetchAux (cancel : Nat → Bool) (outcome : Nat → Outcome T E) :
    Nat → Nat → QueryState T E → RunResult T E
  | retries, t, s =>
    let s1 : QueryState T E := { s with loading := true }
    match outcome t with
    | Outcome.success v =>
      if cancel t then ⟨s1, [s1], [QEvent.issueStart, QEvent.submit t]⟩
      else
        ⟨settleSuccess false v s1, [s1, settleSuccess false v s1],
          [QEvent.issueStart, QEvent.submit t, QEvent.settleOk v]⟩
    | Outcome.failure e =>
      if cancel t then ⟨s1, [s1], [QEvent.issueStart, QEvent.submit t]⟩
      else
        match retries with
        | 0 =>
          ⟨settleFailureTerminal false e s1, [s1, settleFailureTerminal false e s1],
            [QEvent.issueStart, QEvent.submit t, QEvent.settleErr e]⟩
        | r + 1 =>
          let rest := refetchAux cancel outcome r (t + 1) s1
          ⟨rest.state, s1 :: rest.trace,
            QEvent.issueStart :: QEvent.submit t :: QEvent.wait 1000 :: rest.events⟩

/-- `refetch` (lines 336-403): returns immediately when `skip` is set, or when
`web3` or `contract` is absent (lines 338-344); otherwise runs the attempt
chain starting at attempt 0. -/
def refetch (skip : Bool) (hasWeb3 : Bool) (hasContract : Bool)
    (cancel : Nat → Bool) (outcome : Nat → Outcome T E) (retries : Nat)
    (s : QueryState T E) : RunResult T E :=
  if skip then ⟨s, [], []⟩
  else if !hasWeb3 || !hasContract then ⟨s, [], []⟩
  else refetchAux cancel outcome retries 0 s

/-- default retry budget (line 337: `retries = 5`). -/
def defaultRetries : Nat := 5

/-- the issue effect (lines 416-432): returns the state after the effect body
runs and whether a refetch was started.  When `contract` is absent the effect
returns before the `skip` branch; when `skip` is set it writes
`loading := false, firstLoad := false` and does not call `refetch`. -/
def issueEffect (hasContract : Bool) (skip : Bool) (s : QueryState T E) :
    QueryState T E × Bool :=
  if !hasContract then (s, false)
  else if skip then ({ s with loading := false, firstLoad := false }, false)
  else (s, true)

/-- guard of the refetch-signal effect (lines 434-437): the handler is only
registered when a refetch controller and a contract are present and `skip` is
false. -/
def signalRegisters (hasController hasContract skip : Bool) : Bool :=
  hasController && hasContract && !skip

/-- whether an event is a descriptor submission. -/
def isSubmit : QEvent T E → Bool
  | QEvent.submit _ => true
  | _ => false

/-- number of descriptors a run submitted to the batch queue. -/
def submitCount (evs : List (QEvent T E)) : Nat :=
  (evs.filter isSubmit).length

/-- the inter-attempt delays of a run, in milliseconds, in order. -/
def waitsOf (evs : List (QEvent T E)) : List Nat :=
  evs.filterMap fun e =>
    match e with
    | QEvent.wait ms => some ms
    | _ => none

theorem refetchAux_of_cancel (cancel : Nat → Bool) (outcome : Nat → Outcome T E)
    (retries t : Nat) (s : QueryState T E) (h : cancel t = true) :
    refetchAux cancel outcome retries t s
      = ⟨{ s with loading := true }, [{ s with loading := true }],
          [QEvent.issueStart, QEvent.submit t]⟩ := by
  cases houtcome : outcome t with
  | success v => simp [refetchAux, houtcome, h]
  | failure e => cases retries <;> simp [refetchAux, houtcome, h]

theorem refetchAux_fail_retry (cancel : Nat → Bool) (outcome : Nat → Outcome T E)
    (r t : Nat) (s : QueryState T E) (e : E)
    (houtcome : outcome t = Outcome.failure e) (hc : cancel t = false) :
    refetchAux cancel outcome (r + 1) t s
      = ⟨(refetchAux cancel outcome r (t + 1) { s with loading := true }).state,
          { s with loading := true }
            :: (refetchAux cancel outcome r (t + 1) { s with loading := true }).trace,
          QEvent.issueStart :: QEvent.submit t :: QEvent.wait 1000
            :: (refetchAux cancel outcome r (t + 1) { s with loading := true }).events⟩ := by
  rw [refetchAux, houtcome, hc]
  rfl

theorem refetchAux_firstLoad (cancel : Nat → Bool) (outcome : Nat → Outcome T E)
    (retries : Nat) :
    ∀ (t : Nat) (s : QueryState T E), s.firstLoad = false →
      (refetchAux cancel outcome retries t s).state.firstLoad = false
      ∧ ∀ st ∈ (refetchAux cancel outcome retries t s).trace,
          st.firstLoad = false := by
  induction retries with
  | zero =>
    intro t s h
    cases houtcome : outcome t with
    | success v =>
      cases hc : cancel t <;>
        simp [refetchAux, houtcome, hc, settleSuccess, applySuccess, h]
    | failure e =>
      cases hc : cancel t <;>
        simp [refetchAux, houtcome, hc, settleFailureTerminal, applyFailure, h]
  | succ r ih =>
    intro t s h
    cases houtcome : outcome t with
    | success v =>
      cases hc : cancel t <;>
        simp [refetchAux, houtcome, hc, settleSuccess, applySuccess, h]
    | failure e =>
      cases hc : cancel t with
      | true => simp [refetchAux, houtcome, hc, h]
      | false =>
        obtain ⟨h1, h2⟩ := ih (t + 1) { s with loading := true } h
        rw [refetchAux_fail_retry cancel outcome r t s e houtcome hc]
        refine ⟨h1, ?_⟩
        intro st hst
        rcases List.mem_cons.mp hst with rfl | hst
        · exact h
        · exact h2 st hst

theorem refetchAux_trace_head (cancel : Nat → Bool) (outcome : Nat → Outcome T E)
    (retries t : Nat) (s : QueryState T E) :
    (refetchAux cancel outcome retries t s).trace.head?
      = some { s with loading := true } := by
  cases houtcome : outcome t with
  | success v => cases hc : cancel t <;> simp [refetchAux, houtcome, hc]
  | failure e =>
    cases hc : cancel t with
    | true => cases retries <;> simp [refetchAux, houtcome, hc]
    | false =>
      cases retries with
      | zero => simp [refetchAux, houtcome, hc]
      | succ r =>
        rw [refetchAux_fail_retry cancel outcome r t s e houtcome hc]
        rfl

theorem refetchAux_submits (cancel : Nat → Bool) (outcome : Nat → Outcome T E)
    (retries t : Nat) (s : QueryState T E) :
    QEvent.submit t ∈ (refetchAux cancel outcome retries t s).events := by
  cases houtcome : outcome t with
  | success v => cases hc : cancel t <;> simp [refetchAux, houtcome, hc]
  | failure e =>
    cases hc : cancel t with
    | true => cases retries <;> simp [refetchAux, houtcome, hc]
    | false =>
      cases retries with
      | zero => simp [refetchAux, houtcome, hc]
      | succ r =>
        rw [refetchAux_fail_retry cancel outcome r t s e houtcome hc]
        simp

theorem submitCount_pos (evs : List (QEvent T E)) (t : Nat)
    (hm : QEvent.submit t ∈ evs) : 1 ≤ submitCount evs := by
  have hmem : QEvent.submit t ∈ evs.filter isSubmit :=
    List.mem_filter.2 ⟨hm, rfl⟩
  have := List.length_pos.2 (List.ne_nil_of_mem hmem)
  exact this

/-- C3 counterexample: with the default retry budget (`retries = 5`) and a
call that fails on every attempt, the controller submits 6 descriptors (one
initial attempt plus 5 retries), not 5. -/
theorem claim3_counterexample :
    submitCount (refetch false true true (fun _ => false)
        (fun _ => Outcome.failure (0 : Nat)) defaultRetries
        (initialQueryState (T := Nat) (E := Nat))).events ≠ 5 := by
  decide

/-- C3 (amended).  With the default retry budget of 5 and a call failing on
every attempt, `refetch` makes exactly 6 attempts (one initial attempt plus 5
retries), with a fixed 1000 ms delay before each retry (5 delays in all), and
ends with `error` set to the failure, `data` undefined, and `loading` and
`firstLoad` false. -/
theorem claim3_six_attempts (e : E) (s : QueryState T E) :
    submitCount (refetch false true true (fun _ => false)
        (fun _ => Outcome.failure e) defaultRetries s).events = 6
    ∧ waitsOf (refetch false true true (fun _ => false)
        (fun _ => Outcome.failure e) defaultRetries s).events
      = List.replicate 5 1000
    ∧ (refetch false true true (fun _ => false)
        (fun _ => Outcome.failure e) defaultRetries s).state
      = ⟨none, some e, false, false⟩ :=
  ⟨rfl, rfl, rfl⟩

/-- C4 counterexample: a query issued with `skip = true` but no contract
target hits the `if (!contract) return` guard before the skip branch, so its
state never settles: `loading` stays true. -/
theorem claim4_counterexample :
    issueEffect false true (initialQueryState (T := Nat) (E := Nat))
      = (initialQueryState, false)
    ∧ (initialQueryState (T := Nat) (E := Nat)).loading = true
    ∧ (initialQueryState (T := Nat) (E := Nat)).firstLoad = true := by
  decide

/-- C4 (amended).  For every query with a present (non-null) contract target
issued with `skip = true`, the issue effect settles the state to
`loading = false, firstLoad = false` immediately and starts no refetch; a
`refetch` call with `skip = true` submits no descriptor and performs no state
write; and the refetch-signal handler is not even registered when `skip` is
true. -/
theorem claim4_skip_no_submit (s : QueryState T E)
    (hasWeb3 hasContract hasController : Bool) (cancel : Nat → Bool)
    (outcome : Nat → Outcome T E) (retries : Nat) :
    issueEffect true true s
      = ({ s with loading := false, firstLoad := false }, false)
    ∧ refetch true hasWeb3 hasContract cancel outcome retries s
      = ⟨s, [], []⟩
    ∧ submitCount (refetch true hasWeb3 hasContract cancel outcome retries s).events
      = 0
    ∧ signalRegisters hasController hasContract true = false := by
  refine ⟨rfl, rfl, rfl, ?_⟩
  simp [signalRegisters]

/-- whether a controller state has both `data` and `error` set. -/
def bothSet (s : QueryState T E) : Bool :=
  s.data.isSome && s.error.isSome

theorem refetchAux_of_success (cancel : Nat → Bool) (outcome : Nat → Outcome T E)
    (retries t : Nat) (s : QueryState T E) (v : T)
    (houtcome : outcome t = Outcome.success v) (hc : cancel t = false) :
    refetchAux cancel outcome retries t s
      = ⟨settleSuccess false v { s with loading := true },
          [{ s with loading := true },
            settleSuccess false v { s with loading := true }],
          [QEvent.issueStart, QEvent.submit t, QEvent.settleOk v]⟩ := by
  rw [refetchAux, houtcome, hc]
  rfl

theorem refetchAux_of_failZero (cancel : Nat → Bool) (outcome : Nat → Outcome T E)
    (t : Nat) (s : QueryState T E) (e : E)
    (houtcome : outcome t = Outcome.failure e) (hc : cancel t = false) :
    refetchAux cancel outcome 0 t s
      = ⟨settleFailureTerminal false e { s with loading := true },
          [{ s with loading := true },
            settleFailureTerminal false e { s with loading := true }],
          [QEvent.issueStart, QEvent.submit t, QEvent.settleErr e]⟩ := by
  rw [refetchAux, houtcome, hc]
  rfl

theorem refetchAux_bothSet (cancel : Nat → Bool) (outcome : Nat → Outcome T E)
    (retries : Nat) :
    ∀ (t : Nat) (s : QueryState T E), bothSet s = false →
      bothSet (refetchAux cancel outcome retries t s).state = false := by
  induction retries with
  | zero =>
    intro t s h
    cases houtcome : outcome t with
    | success v =>
      cases hc : cancel t with
      | true => rw [refetchAux_of_cancel cancel outcome 0 t s hc]; exact h
      | false => rw [refetchAux_of_success cancel outcome 0 t s v houtcome hc]; rfl
    | failure e =>
      cases hc : cancel t with
      | true => rw [refetchAux_of_cancel cancel outcome 0 t s hc]; exact h
      | false => rw [refetchAux_of_failZero cancel outcome t s e houtcome hc]; rfl
  | succ r ih =>
    intro t s h
    cases houtcome : outcome t with
    | success v =>
      cases hc : cancel t with
      | true => rw [refetchAux_of_cancel cancel outcome (r + 1) t s hc]; exact h
      | false =>
        rw [refetchAux_of_success cancel outcome (r + 1) t s v houtcome hc]; rfl
    | failure e =>
      cases hc : cancel t with
      | true => rw [refetchAux_of_cancel cancel outcome (r + 1) t s hc]; exact h
      | false =>
        rw [refetchAux_fail_retry cancel outcome r t s e houtcome hc]
        exact ih (t + 1) { s with loading := true } h

/-- C5.  After any settled resolution, `data` and `error` are never both set:
a successful resolution writes `data` and clears `error` to `undefined`, a
terminal failure writes `error` and clears `data` to `undefined`, and any
`refetch` run starting from a state not having both set ends in a state not
having both set. -/
theorem claim5_data_error_exclusive (v : T) (e : E) (s : QueryState T E)
    (cancel : Nat → Bool) (outcome : Nat → Outcome T E) (retries t : Nat)
    (h : bothSet s = false) :
    applySuccess v s = ⟨some v, none, false, false⟩
    ∧ applyFailure e s = ⟨none, some e, false, false⟩
    ∧ bothSet (applySuccess (E := E) v s) = false
    ∧ bothSet (applyFailure (T := T) e s) = false
    ∧ bothSet (refetchAux cancel outcome retries t s).state = false :=
  ⟨rfl, rfl, rfl, rfl, refetchAux_bothSet cancel outcome retries t s h⟩

/-- witness for C5 at concrete inputs. -/
theorem claim5_witness :
    applySuccess 3 (initialQueryState (T := Nat) (E := Nat)) = ⟨some 3, none, false, false⟩
    ∧ applyFailure 4 (initialQueryState (T := Nat) (E := Nat)) = ⟨none, some 4, false, false⟩
    ∧ bothSet (applySuccess (E := Nat) 3 (initialQueryState (T := Nat) (E := Nat))) = false
    ∧ bothSet (applyFailure (T := Nat) 4 (initialQueryState (T := Nat) (E := Nat))) = false
    ∧ bothSet (refetchAux (fun _ => false) (fun _ => Outcome.failure 4) 2 0
        (initialQueryState (T := Nat) (E := Nat))).state = false :=
  claim5_data_error_exclusive 3 4 initialQueryState (fun _ => false)
    (fun _ => Outcome.failure 4) 2 0 (by decide)

/-- C6.  Supersession (a new issue or unmount) flips the attempt's
cancellation token via the effect cleanup, and a late-arriving resolution or
rejection carrying a flipped token is discarded without mutating `data`,
`error`, `loading` or `firstLoad`; an entire superseded run writes nothing
beyond its issue-time `loading := true`, so the final `data` reflects only the
newer issue's resolution even when the older one settles later. -/
theorem claim6_cancelled_discard (c : Canceller) (cancel : Nat → Bool)
    (t retries : Nat) (outcome : Nat → Outcome T E) (vOld vNew : T) (e : E)
    (s : QueryState T E) (hc : cancel t = true) :
    (effectCleanup c).cancel = true
    ∧ settleSuccess (effectCleanup c).cancel vOld s = s
    ∧ settleFailureTerminal (effectCleanup c).cancel e s = s
    ∧ (refetchAux cancel outcome retries t s).state = { s with loading := true }
    ∧ settleSuccess (effectCleanup c).cancel vOld (applySuccess vNew s)
      = applySuccess vNew s
    ∧ (settleSuccess (effectCleanup c).cancel vOld (applySuccess vNew s)).data
      = some vNew := by
  refine ⟨rfl, rfl, rfl, ?_, rfl, rfl⟩
  rw [refetchAux_of_cancel cancel outcome retries t s hc]

/-- witness for C6 at concrete inputs. -/
theorem claim6_witness :
    (effectCleanup ⟨false⟩).cancel = true
    ∧ settleSuccess (effectCleanup ⟨false⟩).cancel 1
        (initialQueryState (T := Nat) (E := Nat)) = initialQueryState
    ∧ settleFailureTerminal (effectCleanup ⟨false⟩).cancel 9
        (initialQueryState (T := Nat) (E := Nat)) = initialQueryState
    ∧ (refetchAux (fun _ => true) (fun _ => Outcome.success 1) 5 0
        (initialQueryState (T := Nat) (E := Nat))).state
      = { initialQueryState (T := Nat) (E := Nat) with loading := true }
    ∧ settleSuccess (effectCleanup ⟨false⟩).cancel 1
        (applySuccess 2 (initialQueryState (T := Nat) (E := Nat)))
      = applySuccess 2 (initialQueryState (T := Nat) (E := Nat))
    ∧ (settleSuccess (effectCleanup ⟨false⟩).cancel 1
        (applySuccess 2 (initialQueryState (T := Nat) (E := Nat)))).data
      = some 2 :=
  claim6_cancelled_discard ⟨false⟩ (fun _ => true) 0 5
    (fun _ => Outcome.success 1) 1 2 9 initialQueryState rfl

/-- C9.  A refetch-signal-triggered `refetch` (with a contract and connection
present and `skip` false) is a fresh issue: its first state write sets
`loading := true` and it submits at least one descriptor; and it never resets
`firstLoad` back to true: starting from `firstLoad = false`, every state
written during the run, and the final state, keep `firstLoad = false`. -/
theorem claim9_signal_keeps_firstLoad (cancel : Nat → Bool)
    (outcome : Nat → Outcome T E) (retries : Nat) (s : QueryState T E)
    (h : s.firstLoad = false) :
    (refetch false true true cancel outcome retries s).trace.head?
      = some { s with loading := true }
    ∧ 1 ≤ submitCount (refetch false true true cancel outcome retries s).events
    ∧ (∀ st ∈ (refetch false true true cancel outcome retries s).trace,
        st.firstLoad = false)
    ∧ (refetch false true true cancel outcome retries s).state.firstLoad = false := by
  have hr : refetch false true true cancel outcome retries s
      = refetchAux cancel outcome retries 0 s := rfl
  rw [hr]
  obtain ⟨h1, h2⟩ := refetchAux_firstLoad cancel outcome retries 0 s h
  exact ⟨refetchAux_trace_head cancel outcome retries 0 s,
    submitCount_pos _ 0 (refetchAux_submits cancel outcome retries 0 s),
    h2, h1⟩

/-- witness for C9 at concrete inputs. -/
theorem claim9_witness :
    (refetch false true true (fun _ => false) (fun _ => Outcome.success 5)
        defaultRetries (⟨some 1, none, false, false⟩ : QueryState Nat Nat)).trace.head?
      = some { (⟨some 1, none, false, false⟩ : QueryState Nat Nat) with loading := true }
    ∧ 1 ≤ submitCount (refetch false true true (fun _ => false)
        (fun _ => Outcome.success 5) defaultRetries
        (⟨some 1, none, false, false⟩ : QueryState Nat Nat)).events
    ∧ (∀ st ∈ (refetch false true true (fun _ => false)
        (fun _ => Outcome.success 5) defaultRetries
        (⟨some 1, none, false, false⟩ : QueryState Nat Nat)).trace,
        st.firstLoad = false)
    ∧ (refetch false true true (fun _ => false) (fun _ => Outcome.success 5)
        defaultRetries
        (⟨some 1, none, false, false⟩ : QueryState Nat Nat)).state.firstLoad = false :=
  claim9_signal_keeps_firstLoad (fun _ => false) (fun _ => Outcome.success 5)
    defaultRetries ⟨some 1, none, false, false⟩ rfl

/-- C10.  Every retry passes the same canceller to the recursive call, so with
a monotone cancellation token already flipped at attempt `t`, the chain
starting at `t` never mutates `data`, `error` or `firstLoad`: its only state
write is the issue-time `loading := true`, and it emits no settle event. -/
theorem claim10_retry_chain_cancelled (cancel : Nat → Bool)
    (outcome : Nat → Outcome T E) (t retries : Nat) (s : QueryState T E)
    (_hmono : ∀ i j, i ≤ j → cancel i = true → cancel j = true)
    (ht : cancel t = true) :
    (refetchAux cancel outcome retries t s).state.data = s.data
    ∧ (refetchAux cancel outcome retries t s).state.error = s.error
    ∧ (refetchAux cancel outcome retries t s).state.firstLoad = s.firstLoad
    ∧ (refetchAux cancel outcome retries t s).trace = [{ s with loading := true }]
    ∧ (refetchAux cancel outcome retries t s).events
      = [QEvent.issueStart, QEvent.submit t] := by
  rw [refetchAux_of_cancel cancel outcome retries t s ht]
  exact ⟨rfl, rfl, rfl, rfl, rfl⟩

/-- witness for C10 at concrete inputs. -/
theorem claim10_witness :
    (refetchAux (fun _ => true) (fun _ => Outcome.failure 2) 3 0
        (initialQueryState (T := Nat) (E := Nat))).state.data
      = (initialQueryState (T := Nat) (E := Nat)).data
    ∧ (refetchAux (fun _ => true) (fun _ => Outcome.failure 2) 3 0
        (initialQueryState (T := Nat) (E := Nat))).state.error
      = (initialQueryState (T := Nat) (E := Nat)).error
    ∧ (refetchAux (fun _ => true) (fun _ => Outcome.failure 2) 3 0
        (initialQueryState (T := Nat) (E := Nat))).state.firstLoad
      = (initialQueryState (T := Nat) (E := Nat)).firstLoad
    ∧ (refetchAux (fun _ => true) (fun _ => Outcome.failure 2) 3 0
        (initialQueryState (T := Nat) (E := Nat))).trace
      = [{ initialQueryState (T := Nat) (E := Nat) with loading := true }]
    ∧ (refetchAux (fun _ => true) (fun _ => Outcome.failure 2) 3 0
        (initialQueryState (T := Nat) (E := Nat))).events
      = [QEvent.issueStart, QEvent.submit 0] :=
  claim10_retry_chain_cancelled (fun _ => true) (fun _ => Outcome.failure 2) 0 3
    initialQueryState (fun _ _ _ h => h) rfl

/-- one constituent query result as consumed by `useWeb3MultiQuery`
(src/useWeb3MultiQuery.tsx): `refetch` is modelled by an opaque token of type
`R` identifying the constituent's refetch action. -/
structure Web3QueryResponse (T E R : Type) where
  data : Option T
  error : Option E
  loading : Bool
  firstLoad : Bool
  refetch : R
  deriving Repr, DecidableEq

/-- the combined result: `data` is a positional sequence, `refetch` is the
list of constituent refetch actions that `Promise.all` starts concurrently
and awaits. -/
structure MultiQueryResult (T E R : Type) where
  data : List (Option T)
  error : Option E
  loading : Bool
  firstLoad : Bool
  refetch : List R
  deriving Repr, DecidableEq

variable {R : Type}

/-- the JavaScript `a || b` over `Error | undefined` values as used in the
reducer at line 13 of useWeb3MultiQuery.tsx: an `Error` object is truthy,
`undefined` is falsy. -/
def jsOr (a b : Option E) : Option E :=
  match a with
  | some x => some x
  | none => b

/-- `useWeb3MultiQuery` (src/useWeb3MultiQuery.tsx lines 9-20). -/
def useWeb3MultiQuery (queries : List (Web3QueryResponse T E R)) :
    MultiQueryResult T E R :=
  { data := queries.map (fun q => q.data)
    error := queries.foldl (fun a b => jsOr a b.error) none
    loading := queries.foldl (fun a b => a || b.loading) false
    firstLoad := queries.foldl (fun a b => a || b.firstLoad) false
    refetch := queries.map (fun q => q.refetch) }

theorem foldl_or_eq {α : Type} (f : α → Bool) (l : List α) (a : Bool) :
    l.foldl (fun acc x => acc || f x) a = (a || l.any f) := by
  induction l generalizing a with
  | nil => simp
  | cons x l ih => simp [List.foldl_cons, ih, Bool.or_assoc]

theorem foldl_jsOr_eq {α : Type} (f : α → Option E) (l : List α) (a : Option E) :
    l.foldl (fun acc x => jsOr acc (f x)) a = jsOr a (l.findSome? f) := by
  induction l generalizing a with
  | nil => cases a <;> rfl
  | cons x l ih =>
    rw [List.foldl_cons, ih]
    cases a with
    | some v => rfl
    | none =>
      cases hfx : f x <;> simp [jsOr, List.findSome?_cons, hfx]

/-- C7.  The multi-query combinator returns: `data` equal to the positional
sequence of each constituent's `data` (preserving `undefined` entries),
`error` equal to the first non-null error scanning left to right (`undefined`
if none), `loading` true iff some constituent is loading, `firstLoad` true
iff some constituent is on first load, and a `refetch` that starts every
constituent's refetch (completing when all complete, per `Promise.all`). -/
theorem claim7_multiquery (queries : List (Web3QueryResponse T E R)) :
    (useWeb3MultiQuery queries).data = queries.map (fun q => q.data)
    ∧ (useWeb3MultiQuery queries).error = queries.findSome? (fun q => q.error)
    ∧ (useWeb3MultiQuery queries).loading = queries.any (fun q => q.loading)
    ∧ (useWeb3MultiQuery queries).firstLoad = queries.any (fun q => q.firstLoad)
    ∧ (useWeb3MultiQuery queries).refetch = queries.map (fun q => q.refetch) := by
  refine ⟨rfl, ?_, ?_, ?_, rfl⟩
  · show queries.foldl (fun a b => jsOr a b.error) none = _
    rw [foldl_jsOr_eq (fun q => q.error) queries none]
    rfl
  · exact foldl_or_eq (fun q => q.loading) queries false
  · exact foldl_or_eq (fun q => q.firstLoad) queries false

/-- connection context around the queue (src/useWeb3.tsx lines 96-266):
`web3` is the current `Web3` instance (identified by a numeric id, `none`
when null), `nextWeb3` generates ids for freshly constructed instances, `q`
is the `batchRequestQueue`, and `rejected` records every pending descriptor
whose continuation has been failed, with the error's name.  No statement in
the component ever rejects a pending descriptor, so no operation appends to
`rejected`. -/
structure ConnState (M : Type) where
  web3 : Option Nat
  nextWeb3 : Nat
  q : QueueState M
  rejected : List (M × String)
  deriving Repr, DecidableEq

/-- `disconnect` (lines 231-233) calls `reset` (lines 123-144).  With a
`defaultChain` configured, `reset` constructs a fresh fallback `Web3`
instance and sets it, and the executor-swap effect (lines 235-239) assigns
the queue's `BatchRequest` from the new instance, triggering `process`.
Without a `defaultChain`, `web3` becomes null and the effect's `if (web3)`
guard leaves the queue untouched.  Neither path touches `rejected`. -/
def disconnectStep (defaultChain : Option Nat) (s : ConnState M) : ConnState M :=
  match defaultChain with
  | some _ =>
    { s with
      web3 := some s.nextWeb3
      nextWeb3 := s.nextWeb3 + 1
      q := setBatchRequest s.q s.nextWeb3 }
  | none => { s with web3 := none }

/-- C8 counterexample: a connection context with one pending descriptor,
disconnected (with or without a configured default chain), fails no pending
descriptor's continuation: `rejected` stays empty, and without a default
chain the descriptor simply stays queued.  This contradicts the claim that
each pending descriptor is failed with a `Disconnected` error. -/
theorem claim8_counterexample :
    (⟨some 0, 1, ⟨[42], some 0, [], none, 0, []⟩, []⟩ : ConnState Nat).q.queue ≠ []
    ∧ (disconnectStep none
        (⟨some 0, 1, ⟨[42], some 0, [], none, 0, []⟩, []⟩ : ConnState Nat)).rejected = []
    ∧ (disconnectStep (some 1)
        (⟨some 0, 1, ⟨[42], some 0, [], none, 0, []⟩, []⟩ : ConnState Nat)).rejected = []
    ∧ (disconnectStep none
        (⟨some 0, 1, ⟨[42], some 0, [], none, 0, []⟩, []⟩ : ConnState Nat)).q.queue
      = [42] := by
  decide

/-- C8 (amended).  Disconnection never fails a pending descriptor's
continuation (`rejected` is unchanged — no `Disconnected` error exists in the
code): without a default chain the queue is left entirely untouched, so
pending descriptors stay queued with their continuations unresolved; with a
default chain the queue's executor is swapped to the freshly constructed
fallback instance and the next scheduler turn dispatches the pending
descriptors to it. -/
theorem claim8_disconnect_leaves_pending (dc : Option Nat) (d : Nat)
    (s : ConnState M) (hs : s.q.scheduled = []) (hne : s.q.queue ≠ []) :
    (disconnectStep dc s).rejected = s.rejected
    ∧ (disconnectStep none s).q = s.q
    ∧ (disconnectStep (some d) s).q.queue = s.q.queue
    ∧ (disconnectStep (some d) s).q.batchRequest = some s.nextWeb3
    ∧ (runTurn (disconnectStep (some d) s).q).queue = []
    ∧ (runTurn (disconnectStep (some d) s).q).batches
      = s.q.batches ++ [(s.nextWeb3, s.q.queue)] := by
  have hq : (disconnectStep (some d) s).q = setBatchRequest s.q s.nextWeb3 := rfl
  obtain ⟨hsch, _⟩ :=
    process_oneScheduled { s.q with batchRequest := some s.nextWeb3 } s.nextWeb3
      rfl (Or.inl hs)
  have hset : setBatchRequest s.q s.nextWeb3
      = process { s.q with batchRequest := some s.nextWeb3 } := rfl
  have hrt := runTurn_of_one (setBatchRequest s.q s.nextWeb3) _
    (by rw [hset]; exact hsch)
  have hqset : ({ setBatchRequest s.q s.nextWeb3 with
      scheduled := ([] : List Nat) }).queue = s.q.queue := by
    show (setBatchRequest s.q s.nextWeb3).queue = s.q.queue
    rw [setBatchRequest_queue]
  have hbset : ({ setBatchRequest s.q s.nextWeb3 with
      scheduled := ([] : List Nat) }).batchRequest = some s.nextWeb3 := by
    show (setBatchRequest s.q s.nextWeb3).batchRequest = some s.nextWeb3
    rw [setBatchRequest_batchRequest]
  have hfl := flushBody_of_nonempty
    { setBatchRequest s.q s.nextWeb3 with scheduled := ([] : List Nat) }
    s.nextWeb3 (by rw [hqset]; exact hne) hbset
  refine ⟨by cases dc <;> rfl, rfl, by rw [hq, setBatchRequest_queue],
    by rw [hq, setBatchRequest_batchRequest], ?_, ?_⟩
  · rw [hq, hrt, hfl]
  · rw [hq, hrt, hfl]
    show ({ setBatchRequest s.q s.nextWeb3 with
        scheduled := ([] : List Nat) }).batches
      ++ [(s.nextWeb3, ({ setBatchRequest s.q s.nextWeb3 with
        scheduled := ([] : List Nat) }).queue)] = _
    rw [hqset]
    show (setBatchRequest s.q s.nextWeb3).batches ++ [(s.nextWeb3, s.q.queue)] = _
    rw [setBatchRequest_batches]

/-- witness for C8's amended statement at a concrete connection context. -/
theorem claim8_witness :
    (disconnectStep none
        (⟨some 0, 1, ⟨[42], some 0, [], none, 0, []⟩, []⟩ : ConnState Nat)).rejected
      = (⟨some 0, 1, ⟨[42], some 0, [], none, 0, []⟩, []⟩ : ConnState Nat).rejected
    ∧ (disconnectStep none
        (⟨some 0, 1, ⟨[42], some 0, [], none, 0, []⟩, []⟩ : ConnState Nat)).q
      = (⟨some 0, 1, ⟨[42], some 0, [], none, 0, []⟩, []⟩ : ConnState Nat).q
    ∧ (disconnectStep (some 137)
        (⟨some 0, 1, ⟨[42], some 0, [], none, 0, []⟩, []⟩ : ConnState Nat)).q.queue
      = (⟨some 0, 1, ⟨[42], some 0, [], none, 0, []⟩, []⟩ : ConnState Nat).q.queue
    ∧ (disconnectStep (some 137)
        (⟨some 0, 1, ⟨[42], some 0, [], none, 0, []⟩, []⟩ : ConnState Nat)).q.batchRequest
      = some 1
    ∧ (runTurn (disconnectStep (some 137)
        (⟨some 0, 1, ⟨[42], some 0, [], none, 0, []⟩, []⟩ : ConnState Nat)).q).queue = []
    ∧ (runTurn (disconnectStep (some 137)
        (⟨some 0, 1, ⟨[42], some 0, [], none, 0, []⟩, []⟩ : ConnState Nat)).q).batches
      = [] ++ [(1, [42])] :=
  claim8_disconnect_leaves_pending none 137
    ⟨some 0, 1, ⟨[42], some 0, [], none, 0, []⟩, []⟩ rfl (by decide)

end Web3React
